import Mathlib

/-!
Verification development for the `conc` library: an adaptive concurrency
controller for a worker pool (gradient-based limit estimator plus worker-pool
manager).

The definitions below are a shallow embedding of the Go source:

* Go `uint` is modelled as `Nat`; where Go arithmetic can wrap, the wrap is
  made explicit modulo `2^64`.
* Go `int32` (the reporter's in-flight gauge) is modelled as `Int` with
  explicit wraparound into `[-2^31, 2^31)`.
* Go `time.Duration` (an `int64` of nanoseconds) is modelled as `Int`.
* Go floating point values are modelled by exact rationals `ℚ`; the spec's
  formulas are stated in real arithmetic, and the control algorithm is
  translated operation by operation.
* A Go `panic` during construction is modelled as `Except.error`.
* The pseudo-random source is modelled by threading an arbitrary draw
  (a `Nat`) into the functions that consume randomness; `rand.Intn n`
  reduces the draw into `[0, n)`, which is that function's range contract.
-/

namespace conc

/-- `2^64`: Go `uint` arithmetic wraps modulo this. -/
def U64 : Nat := 2 ^ 64

/-- Go `uint` decrement `x--` for a value `x < 2^64`: wraps modulo `2^64`. -/
def decrU64 (x : Nat) : Nat := (x + (U64 - 1)) % U64

/-- Go `int32` wraparound of an integer into `[-2^31, 2^31)`. -/
def i32wrap (x : Int) : Int := (x + 2 ^ 31) % 2 ^ 32 - 2 ^ 31

/-- Go conversion `uint(v)` of an `int32` value `v`: sign-extended to 64 bits
and reinterpreted, i.e. reduced modulo `2^64`. -/
def uintOfInt (i : Int) : Nat := (i % (2 ^ 64 : Int)).toNat

/-- Go conversion `uint(f)` of a `float64`: truncation toward zero. All values
converted by the controller are nonnegative, where truncation toward zero is
the floor; negative inputs (unspecified in Go) are mapped to 0 by `Nat.floor`. -/
def goUint (q : ℚ) : Nat := ⌊q⌋₊

/-- src/gradient.go: `DefaultMaxConcurrency`. -/
def DefaultMaxConcurrency : Nat := 20

/-- The `Execution` feedback record (named `ControllerReport` in the
src/interfaces.go variant): `InFlight` (observed in-flight snapshot),
`RTT` (a `time.Duration`), `Err` (the work unit's error, `nil` or not). -/
structure Execution where
  inFlight : Nat
  rtt : Int
  err : Option String
  deriving Repr, DecidableEq

/-! ### Reporter (src/unnamed/part_001 / src/interfaces.go): in-flight gauge and `Work` -/

/-- The reporter's in-flight gauge (`inFlight int32`), instrumented with the
number of increments and decrements performed on it, so that "decremented
exactly once per invocation" is expressible about a single `Work` call. -/
structure Gauge where
  val : Int
  incs : Nat
  decs : Nat
  deriving Repr, DecidableEq

/-- `atomic.AddInt32(&r.inFlight, d)`: updates the gauge (with `int32`
wraparound) and returns the new value. -/
def addInt32 (g : Gauge) (d : Int) : Gauge × Int :=
  let v := i32wrap (g.val + d)
  ({ val := v,
     incs := g.incs + (if 0 < d then 1 else 0),
     decs := g.decs + (if d < 0 then 1 else 0) }, v)

/-- `(r *NonBlockingReporter) start()`: increment the in-flight gauge. -/
def start (g : Gauge) : Gauge := (addInt32 g 1).1

/-- `(r *NonBlockingReporter) done(latency, err)`: decrement the gauge and
build the `Execution` from the post-decrement value
(`inflight := atomic.AddInt32(&r.inFlight, -1)`). The non-blocking channel
send may drop the record; the `Execution` returned here is the record offered
to the channel. -/
def done (g : Gauge) (latency : Int) (err : Option String) : Gauge × Execution :=
  let r := addInt32 g (-1)
  (r.1, { inFlight := uintOfInt r.2, rtt := latency, err := err })

/-- Outcome of running a user work unit: a normal return carrying its `error`
value (possibly `nil` = `none`), or a panic carrying its payload. -/
inductive UnitOutcome where
  | ok (err : Option String)
  | panics (payload : String)
  deriving Repr, DecidableEq

/-- Result of one `Work` invocation: the final gauge, the `Execution` offered
to the feedback channel (`none` when the unit panicked), and the repropagated
panic payload, if any. -/
structure WorkResult where
  gauge : Gauge
  report : Option Execution
  panicked : Option String
  deriving Repr, DecidableEq

/-- `(r *NonBlockingReporter) Work(unit)`: increment the gauge, run the unit,
and in a deferred block either (on panic) decrement the gauge and re-panic, or
(on normal return) call `done` with the measured latency and the unit's error.
`rtt` abstracts the measured wall-clock duration `time.Now().Sub(start)`;
`outcome` abstracts running `unit()`. -/
def Work (g : Gauge) (rtt : Int) (outcome : UnitOutcome) : WorkResult :=
  let g1 := start g
  match outcome with
  | .ok err =>
      let r := done g1 rtt err
      { gauge := r.1, report := some r.2, panicked := none }
  | .panics p =>
      { gauge := (addInt32 g1 (-1)).1, report := none, panicked := some p }

/-! ### WorkerPool (src/workerpool.go / src/interfaces.go `Orchestrator`) -/

/-- `(o *WorkerPool) Incr(n)`: effect on `wantedN` (`o.wantedN += n`, Go uint).
Spawning of worker goroutines and the `actualN` bookkeeping do not affect
`wantedN` and are outside this embedding. -/
def Incr (wantedN n : Nat) : Nat := (wantedN + n) % U64

/-- `(o *WorkerPool) Decr(n)`: effect on `wantedN`, for `wantedN, n < 2^64`.

    o.wantedN -= n
    if o.wantedN < 1 {
        // Can't have zero of negative number of processes.
        o.wantedN = 0
    }

Go `uint` subtraction wraps modulo `2^64`, so `o.wantedN -= n` is
`(wantedN + 2^64 - n) mod 2^64`; the `< 1` guard afterwards only matches the
exact value 0. The asynchronous delivery of `n` stop tokens does not affect
`wantedN`. -/
def Decr (wantedN n : Nat) : Nat :=
  let w := (wantedN + (U64 - n)) % U64
  if w < 1 then 0 else w

/-! ### GradientController (src/unnamed/part_000; src/gradient.go is the same
algorithm with `float32` in place of `float64`) -/

/-- `min(a, b uint)` helper from src/unnamed/part_000. -/
def min (a b : Nat) : Nat := if a < b then a else b

/-- `max(a, b uint)` helper from src/unnamed/part_000. -/
def max (a b : Nat) : Nat := if a > b then a else b

/-- `minf` float helper from src/unnamed/part_000. -/
def minf (a b : ℚ) : ℚ := if a < b then a else b

/-- `maxf` float helper from src/unnamed/part_000. -/
def maxf (a b : ℚ) : ℚ := if a > b then a else b

/-- Default queue-size function `sqrt(x uint)`:
`uint(math.Round(math.Sqrt(float64(x))))`, the integer nearest to `√x`
(√x is never a half-integer, so rounding is unambiguous):
`Nat.sqrt x + 1` exactly when `(2·⌊√x⌋+1)² ≤ 4x`, i.e. `√x ≥ ⌊√x⌋ + 1/2`. -/
def sqrt (x : Nat) : Nat :=
  let n := Nat.sqrt x
  if (2 * n + 1) ^ 2 ≤ 4 * x then n + 1 else n

/-- The `GradientController` struct: configuration fields set by the
constructor options, plus the control-loop variables `resetRTTCounter`,
`resetNoLoadRTT`, `noLoadRTT` (Go zero values at construction). The worker
pool's `wantedN` is read through `c.pool.WantedN()` and is passed to the
functions below as an explicit argument. -/
structure GradientController where
  initial : Nat
  min : Nat
  max : Nat
  rttTolerance : ℚ
  smoothing : ℚ
  queueSize : Nat → Nat
  probeInterval : Nat
  backoffRatio : ℚ
  resetRTTCounter : Nat
  resetNoLoadRTT : Bool
  noLoadRTT : Int

/-- Functional options `GradientOpts` (`func(*GradientController)`). -/
def GradientOpts : Type := GradientController → GradientController

def WithRTTTolerance (rttt : ℚ) : GradientOpts := fun g => { g with rttTolerance := rttt }

def WithSmoothing (s : ℚ) : GradientOpts := fun g => { g with smoothing := s }

def WithQueueSize (q : Nat → Nat) : GradientOpts := fun g => { g with queueSize := q }

def WithProbeInterval (i : Nat) : GradientOpts := fun g => { g with probeInterval := i }

def WithBackoffRatio (b : ℚ) : GradientOpts := fun g => { g with backoffRatio := b }

def WithInitialLimit (b : Nat) : GradientOpts := fun g => { g with initial := b }

def WithMinLimit (b : Nat) : GradientOpts := fun g => { g with min := b }

def WithMaxLimit (b : Nat) : GradientOpts := fun g => { g with max := b }

/-- The defaults installed by `NewGradientController` before options run
(floats written as exact rationals), with the control-loop variables at their
Go zero values. -/
def defaultController : GradientController :=
  { initial := 1,
    min := 1,
    max := DefaultMaxConcurrency,
    rttTolerance := 2,
    smoothing := 1 / 5,
    queueSize := sqrt,
    probeInterval := 1000,
    backoffRatio := 9 / 10,
    resetRTTCounter := 0,
    resetNoLoadRTT := false,
    noLoadRTT := 0 }

/-- `NewGradientController`: apply the options over the defaults, then check
the argument invariants, panicking (modelled as `Except.error`) on violation. -/
def NewGradientController (opts : List GradientOpts) : Except String GradientController :=
  let c := opts.foldl (fun a o => o a) defaultController
  if c.min > c.max then .error "min cannot be greater than max."
  else if c.initial < c.min then .error "initial cannot be less than min."
  else if c.initial > c.max then .error "initial cannot be greater than max."
  else .ok c

/-- `rand.Intn n` modelled by reducing an arbitrary PRNG draw into `[0, n)`,
the function's range contract (for `n ≥ 1`; Go panics for `n ≤ 0`). -/
def Intn (draw n : Nat) : Nat := draw % n

/-- `(c *GradientController) nextResetCounter()` (src/unnamed/part_000):
`c.probeInterval + uint(c.rand.Intn(int(c.probeInterval)))`. -/
def nextResetCounter (probeInterval draw : Nat) : Nat :=
  probeInterval + Intn draw probeInterval

/-- `(c *GradientController) nextResetCounter()` (src/gradient.go variant):
returns `c.probeInterval` with no randomness (randomness is a TODO there). -/
def nextResetCounterConst (probeInterval : Nat) : Nat := probeInterval

/-- `(c *GradientController) update(r)` (src/unnamed/part_000 lines 170-208;
src/gradient.go lines 159-197 is the same algorithm over `float32`): one
control step. `wantedN` is the value read from `c.pool.WantedN()`; the result
is the controller with its loop variables updated, paired with the returned
new limit. Field mutations of the Go method become the returned record. -/
def update (c : GradientController) (wantedN : Nat) (r : Execution) (draw : Nat) :
    GradientController × Nat :=
  let currLimit := wantedN
  let queueSize := c.queueSize currLimit
  -- c.resetRTTCounter-- followed by `if c.resetRTTCounter <= 0` (uint: == 0).
  let counter := decrU64 c.resetRTTCounter
  if counter = 0 then
    ({ c with resetRTTCounter := nextResetCounter c.probeInterval draw,
              resetNoLoadRTT := true },
     queueSize)
  else
    let c1 : GradientController :=
      if c.resetNoLoadRTT ∨ c.noLoadRTT > r.rtt then
        { c with resetRTTCounter := counter, noLoadRTT := r.rtt, resetNoLoadRTT := false }
      else
        { c with resetRTTCounter := counter }
    let gradient : ℚ :=
      maxf (1 / 2) (minf 1 (c.rttTolerance * (c1.noLoadRTT : ℚ) / (r.rtt : ℚ)))
    let fcurrLimit : ℚ := (currLimit : ℚ)
    let newLimit0 : ℚ :=
      if r.err.isSome then fcurrLimit * c.backoffRatio
      else fcurrLimit * gradient + (queueSize : ℚ)
    let newLimit : ℚ :=
      if newLimit0 < fcurrLimit then
        (1 - c.smoothing) * fcurrLimit + c.smoothing * newLimit0
      else newLimit0
    (c1, conc.max queueSize (goUint newLimit))

/-- `(c *GradientController) adjust(newLimit, settle)`: effect on the pool
target `wantedN`. Clamp into `[min, max]`, then `Incr`/`Decr` the pool by the
difference. `SettleDown` and notification clearing do not change `wantedN`. -/
def adjust (c : GradientController) (wantedN newLimit : Nat) : Nat :=
  let nl := conc.max newLimit c.min
  let nl2 := conc.min nl c.max
  if nl2 > wantedN then Incr wantedN (nl2 - wantedN)
  else if wantedN > nl2 then Decr wantedN (wantedN - nl2)
  else wantedN

/-- The no-work branch of the controller loop (`Start`, src/unnamed/part_000
lines 159-165):

    if newLimit := c.pool.WantedN() - 1; newLimit >= c.min {
        c.adjust(newLimit, false)
    }

`c.pool.WantedN() - 1` is Go `uint` subtraction and wraps at 0. The returned
pair is the pool's `wantedN` after the branch and whether `adjust` was
invoked. -/
def noWorkStep (c : GradientController) (wantedN : Nat) : Nat × Bool :=
  let newLimit := (wantedN + (U64 - 1)) % U64
  if newLimit ≥ c.min then (adjust c wantedN newLimit, true) else (wantedN, false)

/-! ### Helper lemmas -/

theorem decrU64_one : decrU64 1 = 0 := by decide

theorem decrU64_ne_zero {x : Nat} (h1 : x ≠ 1) (h2 : x < U64) : decrU64 x ≠ 0 := by
  unfold decrU64 U64 at *
  omega

/-! ### Claim theorems -/

/-- Claim C1 (code bug, evaluated at the failing input): `Decr(2)` on a pool
with `wanted_n = 1` does not saturate at 0; the Go `uint` subtraction wraps to
`2^64 - 1` and the `if o.wantedN < 1` guard (which can only match the exact
value 0) does not fire, contradicting the code's own comment that a negative
number of processes is impossible. -/
theorem Decr_wraps_on_underflow : Decr 1 2 = U64 - 1 ∧ U64 - 1 ≠ 0 := by decide

/-- Claim C2 (counterexample): with no other work units running, a single
`Work` invocation executes one unit, so the count of concurrently executing
units including the completing unit itself is 1; but the emitted `Execution`
carries `in_flight = 0`, the post-decrement gauge value, not 1. -/
theorem Work_inFlight_not_including_self_cex :
    (Work ⟨0, 0, 0⟩ 100 (.ok none)).report = some ⟨0, 100, none⟩ ∧ (0 : Nat) ≠ 1 := by
  decide

/-- Claim C2 (amended): every `Execution` emitted by `Work(unit)` carries in
its `in_flight` field the number of concurrently executing work units
excluding the completing unit itself, as observed at the unit's completion:
with `g.val` other units in flight at entry (so `g.val + 1` including self
during execution), the emitted record carries `g.val`. -/
theorem Work_reports_inFlight_excluding_self (g : Gauge) (rtt : Int) (err : Option String)
    (h0 : 0 ≤ g.val) (h1 : g.val + 1 < 2 ^ 31) :
    (Work g rtt (.ok err)).report = some ⟨g.val.toNat, rtt, err⟩ := by
  simp [Work, start, done, addInt32, i32wrap, uintOfInt, Execution.mk.injEq]
  omega

/-- Witness for `Work_reports_inFlight_excluding_self` at a concrete input:
three other units in flight, the completing unit reports `in_flight = 3`. -/
theorem Work_reports_inFlight_excluding_self_witness :
    (Work ⟨3, 0, 0⟩ 7 (.ok none)).report = some ⟨3, 7, none⟩ :=
  Work_reports_inFlight_excluding_self ⟨3, 0, 0⟩ 7 none (by decide) (by decide)

/-- Claim C5 (counterexample): with `min = 0` (a configuration accepted by the
constructor, e.g. together with `initial = 0`) and `wanted_n = 0 = min`, a
no-work signal is not a no-op: `WantedN() - 1` wraps to `2^64 - 1`, the
`newLimit >= c.min` guard passes, `adjust` is invoked, and the pool target
jumps to the configured `max` (20), not 0. -/
theorem noWork_min_zero_cex :
    noWorkStep { defaultController with min := 0 } 0 = (20, true) ∧ (20 : Nat) ≠ 0 := by
  decide

/-- Claim C5 (amended): for every controller state with `min ≥ 1` and
`wanted_n = min`, a no-work signal is a no-op: the guard `wanted_n - 1 ≥ min`
fails, `adjust` is not invoked (second component `false`), and `wanted_n` is
unchanged. -/
theorem noWork_at_min_noop (c : GradientController) (w : Nat)
    (hmin : 1 ≤ c.min) (hw : w = c.min) (hlt : w < U64) :
    noWorkStep c w = (w, false) := by
  subst hw
  have hcond : ¬ ((c.min + (U64 - 1)) % U64 ≥ c.min) := by
    unfold U64 at *
    omega
  simp [noWorkStep, hcond]

/-- Witness for `noWork_at_min_noop`: default configuration (`min = 1`) with
`wanted_n = 1`. -/
theorem noWork_at_min_noop_witness :
    noWorkStep defaultController 1 = (1, false) :=
  noWork_at_min_noop defaultController 1 (by decide) rfl (by decide)

/-- Claim C6: every invocation of `Work(unit)` decrements the in-flight gauge
exactly once (and increments it exactly once), whether the unit returns
normally or aborts abnormally; `Work` itself never fails: on a panic the
payload is repropagated unchanged after the decrement and no record is
emitted, and on a normal return the unit's error value is placed in the
emitted `Execution`'s `err` field with the measured RTT. -/
theorem Work_decrements_once (g : Gauge) (rtt : Int) (o : UnitOutcome) :
    ((Work g rtt o).gauge.decs = g.decs + 1 ∧ (Work g rtt o).gauge.incs = g.incs + 1) ∧
    (∀ p, o = .panics p →
        (Work g rtt o).panicked = some p ∧ (Work g rtt o).report = none) ∧
    (∀ e, o = .ok e →
        (Work g rtt o).panicked = none ∧
        ∃ rep, (Work g rtt o).report = some rep ∧ rep.rtt = rtt ∧ rep.err = e) := by
  cases o <;>
    simp [Work, start, done, addInt32, Execution.mk.injEq]

/-- Witness for `Work_decrements_once` at a concrete input: a failing unit
(`err = some "boom"`) run from an idle reporter decrements exactly once and
does not panic. -/
theorem Work_decrements_once_witness :
    (Work ⟨0, 0, 0⟩ 5 (.ok (some "boom"))).gauge.decs = 0 + 1 ∧
    (Work ⟨0, 0, 0⟩ 5 (.ok (some "boom"))).panicked = none :=
  ⟨(Work_decrements_once ⟨0, 0, 0⟩ 5 (.ok (some "boom"))).1.1,
   ((Work_decrements_once ⟨0, 0, 0⟩ 5 (.ok (some "boom"))).2.2 (some "boom") rfl).1⟩

/-- Claim C8: for every `probe_interval ≥ 1` and every PRNG draw,
`nextResetCounter` returns a value in `[probe_interval, 2 * probe_interval)`;
this holds both for the randomized variant (src/unnamed/part_000) and for the
constant variant (src/gradient.go). -/
theorem nextResetCounter_range (p draw : Nat) (hp : 1 ≤ p) :
    (p ≤ nextResetCounter p draw ∧ nextResetCounter p draw < 2 * p) ∧
    (p ≤ nextResetCounterConst p ∧ nextResetCounterConst p < 2 * p) := by
  unfold nextResetCounter nextResetCounterConst Intn
  have := Nat.mod_lt draw (show 0 < p by omega)
  omega

/-- Witness for `nextResetCounter_range` at `probe_interval = 5`, draw 12. -/
theorem nextResetCounter_range_witness :
    (5 ≤ nextResetCounter 5 12 ∧ nextResetCounter 5 12 < 2 * 5) ∧
    (5 ≤ nextResetCounterConst 5 ∧ nextResetCounterConst 5 < 2 * 5) :=
  nextResetCounter_range 5 12 (by decide)

/-- Claim C9: constructing a `GradientController` whose post-option
configuration has `min > max`, `initial < min` or `initial > max` fails (an
`error` is returned, no controller); for every configuration with
`min ≤ initial ≤ max` construction succeeds and the returned controller is
exactly the configured record (in particular its bounds equal the configured
values). -/
theorem NewGradientController_validates (opts : List GradientOpts)
    (c : GradientController) (hc : c = opts.foldl (fun a o => o a) defaultController) :
    ((c.max < c.min ∨ c.initial < c.min ∨ c.max < c.initial) →
        ∃ msg, NewGradientController opts = .error msg) ∧
    (c.min ≤ c.initial → c.initial ≤ c.max → NewGradientController opts = .ok c) := by
  have hN : NewGradientController opts =
      (if c.min > c.max then .error "min cannot be greater than max."
       else if c.initial < c.min then .error "initial cannot be less than min."
       else if c.initial > c.max then .error "initial cannot be greater than max."
       else .ok c) := by
    subst hc
    rfl
  rw [hN]
  constructor
  · intro h
    split_ifs with h1 h2 h3
    · exact ⟨_, rfl⟩
    · exact ⟨_, rfl⟩
    · exact ⟨_, rfl⟩
    · exact absurd h (by omega)
  · intro h1 h2
    rw [if_neg (by omega), if_neg (by omega), if_neg (by omega)]

/-- Witness for `NewGradientController_validates`: setting `min = 2`,
`initial = 3`, `max = 7` satisfies the invariant and construction returns the
configured record. -/
theorem NewGradientController_validates_witness :
    NewGradientController [WithMinLimit 2, WithInitialLimit 3, WithMaxLimit 7] =
      .ok { defaultController with min := 2, initial := 3, max := 7 } :=
  (NewGradientController_validates
      [WithMinLimit 2, WithInitialLimit 3, WithMaxLimit 7]
      { defaultController with min := 2, initial := 3, max := 7 } rfl).2
    (by decide) (by decide)

/-- Claim C3: when the probe countdown reaches zero on an incoming execution
report (the counter was 1 and the step's decrement takes it to 0), `update`
re-seeds the countdown from `nextResetCounter`, arms `resetNoLoadRTT`, and
returns exactly `queueSize(wanted_n)` as the new limit — for every report `r`,
regardless of its RTT or error, and with `noLoadRTT` untouched. -/
theorem update_probe_step (c : GradientController) (wantedN : Nat) (r : Execution)
    (draw : Nat) (h : c.resetRTTCounter = 1) :
    update c wantedN r draw =
      ({ c with resetRTTCounter := nextResetCounter c.probeInterval draw,
                resetNoLoadRTT := true },
       c.queueSize wantedN) := by
  unfold update
  rw [h]
  simp [decrU64_one]

/-- Witness for `update_probe_step`: default configuration with the countdown
at 1; the step returns `sqrt 10` and re-seeds the countdown to
`1000 + 7 % 1000 = 1007`. -/
theorem update_probe_step_witness :
    update { defaultController with resetRTTCounter := 1 } 10 ⟨3, 200, none⟩ 7 =
      ({ defaultController with resetRTTCounter := 1007, resetNoLoadRTT := true },
       sqrt 10) :=
  update_probe_step { defaultController with resetRTTCounter := 1 } 10 ⟨3, 200, none⟩ 7 rfl

/-- Claim C4: for every execution report with an error present that does not
trigger a probe, `update`'s pre-smoothing new limit is
`wanted_n * backoffRatio` independently of the computed gradient; with
`backoffRatio ≤ 1` this is a decrease (or leaves the limit unchanged, in
which case smoothing is the identity), so the returned limit equals
`max(queueSize(wanted_n), ⌊(1 - smoothing) * wanted_n + smoothing * (wanted_n * backoffRatio)⌋)`. -/
theorem update_error_backoff (c : GradientController) (wantedN : Nat) (r : Execution)
    (draw : Nat) (hc : c.resetRTTCounter ≠ 1) (hlt : c.resetRTTCounter < U64)
    (herr : r.err.isSome = true) (hb : c.backoffRatio ≤ 1) :
    (update c wantedN r draw).2 =
      conc.max (c.queueSize wantedN)
        (goUint ((1 - c.smoothing) * (wantedN : ℚ) +
          c.smoothing * ((wantedN : ℚ) * c.backoffRatio))) := by
  have hne : decrU64 c.resetRTTCounter ≠ 0 := decrU64_ne_zero hc hlt
  simp only [update, if_neg hne, herr, if_true]
  by_cases hlt2 : (wantedN : ℚ) * c.backoffRatio < (wantedN : ℚ)
  · rw [if_pos hlt2]
  · rw [if_neg hlt2]
    have heq : (wantedN : ℚ) * c.backoffRatio = (wantedN : ℚ) := by
      nlinarith [Nat.cast_nonneg (α := ℚ) wantedN]
    rw [heq]
    ring_nf

/-- Witness for `update_error_backoff`, matching the spec's error-backoff
scenario: `L = 10`, `queueSize = 3`, `smoothing = 1/5`, `backoffRatio = 9/10`;
pre-smoothing limit 9, smoothed `0.8*10 + 0.2*9 = 9.8`, floored to 9,
`max(3, 9) = 9`. -/
theorem update_error_backoff_witness :
    (update
        { defaultController with
            resetRTTCounter := 5, noLoadRTT := 100, queueSize := fun x => x / 3 }
        10 ⟨3, 200, some "e"⟩ 0).2 = 9 := by
  have h := update_error_backoff
    { defaultController with
        resetRTTCounter := 5, noLoadRTT := 100, queueSize := fun x => x / 3 }
    10 ⟨3, 200, some "e"⟩ 0 (by decide) (by decide) rfl
    (by norm_num [defaultController])
  rw [h]
  have e1 : ((1 : ℚ) - 1 / 5) * ((10 : Nat) : ℚ) +
      (1 / 5 : ℚ) * (((10 : Nat) : ℚ) * (9 / 10)) = ((49 : ℕ) : ℚ) / ((5 : ℕ) : ℚ) := by
    push_cast
    norm_num
  show conc.max (10 / 3) (goUint _) = 9
  rw [show ((1 : ℚ) - defaultController.smoothing) * ((10 : Nat) : ℚ) +
      defaultController.smoothing * (((10 : Nat) : ℚ) * defaultController.backoffRatio) =
      ((49 : ℕ) : ℚ) / ((5 : ℕ) : ℚ) from e1]
  unfold goUint
  rw [Nat.floor_div_nat, Nat.floor_natCast]
  decide

/-- Claim C7: in a non-probe `update` step, the no-load RTT behaves as the
spec describes the probe epoch: if `resetNoLoadRTT` is armed the incoming
report's RTT unconditionally overwrites `noLoadRTT` and the flag clears;
otherwise `noLoadRTT` never increases — it is either left unchanged or
overwritten by a strictly smaller reported RTT. -/
theorem update_noLoadRTT_monotone (c : GradientController) (wantedN : Nat)
    (r : Execution) (draw : Nat)
    (hc : c.resetRTTCounter ≠ 1) (hlt : c.resetRTTCounter < U64) :
    (c.resetNoLoadRTT = true →
        (update c wantedN r draw).1.noLoadRTT = r.rtt ∧
        (update c wantedN r draw).1.resetNoLoadRTT = false) ∧
    (c.resetNoLoadRTT = false →
        (update c wantedN r draw).1.noLoadRTT ≤ c.noLoadRTT ∧
        ((update c wantedN r draw).1.noLoadRTT = c.noLoadRTT ∨
         ((update c wantedN r draw).1.noLoadRTT = r.rtt ∧ r.rtt < c.noLoadRTT))) := by
  have hne : decrU64 c.resetRTTCounter ≠ 0 := decrU64_ne_zero hc hlt
  simp only [update, if_neg hne]
  constructor
  · intro hT
    simp only [hT, true_or, if_true]
    exact ⟨trivial, trivial⟩
  · intro hF
    simp only [hF, Bool.false_eq_true, false_or]
    by_cases hr : c.noLoadRTT > r.rtt
    · rw [if_pos hr]
      exact ⟨le_of_lt hr, Or.inr ⟨rfl, hr⟩⟩
    · rw [if_neg hr]
      exact ⟨le_refl _, Or.inl rfl⟩

/-- Witness for `update_noLoadRTT_monotone`: with the reset flag armed and a
prior `noLoadRTT = 100`, a report with RTT 200 overwrites unconditionally. -/
theorem update_noLoadRTT_monotone_witness :
    (update
        { defaultController with
            resetRTTCounter := 5, resetNoLoadRTT := true, noLoadRTT := 100 }
        10 ⟨3, 200, none⟩ 0).1.noLoadRTT = 200 ∧
    (update
        { defaultController with
            resetRTTCounter := 5, resetNoLoadRTT := true, noLoadRTT := 100 }
        10 ⟨3, 200, none⟩ 0).1.resetNoLoadRTT = false :=
  (update_noLoadRTT_monotone
      { defaultController with
          resetRTTCounter := 5, resetNoLoadRTT := true, noLoadRTT := 100 }
      10 ⟨3, 200, none⟩ 0 (by decide) (by decide)).1 rfl

end conc
